import Mathlib

/-!
Verification of the Discord bot webhook hook
(`src/plugins/discord_bot_plugin.py`, class `DiscordBotWebhookHook`).

The Python code is shallowly embedded:

* an Airflow `Connection` record becomes `Connection` (optional password,
  plus the `extra_dejson` map as an association list of string keys/values);
* Python truthiness of optional strings (`None` and `""` are falsy) becomes
  `pyTruthy` / `pyTruthyOpt`;
* `_get_token` becomes `get_token`, returning the token together with the
  number of deprecation warnings emitted (the `warnings.warn` call);
* `_get_endpoint` becomes `get_endpoint`; its Python original can fall off
  the end of the function and return `None`, which is modelled by the result
  type `Except ErrorKind (Option String)`;
* `_build_payload` becomes `build_payload`; Python's
  `json.dumps({"content": message, "tts": tts})` (default `ensure_ascii=True`,
  default separators, insertion order) is modelled by `json_dumps_payload`
  with the character-exact string escaping of CPython's
  `encode_basestring_ascii` in `escapeChar`;
* `__init__` becomes `mkHook` (it resolves token then endpoint, so resolution
  errors are raised at construction time);
* `execute` becomes `HookState.execute`, returning the list of HTTP requests
  handed to the underlying `HttpHook.run` capability together with the error,
  if any, raised before the request could be issued;
* `AirflowNotFoundException` / `AirflowException` (message-length validation)
  become `ErrorKind.notFound` / `ErrorKind.validation`.

An independent JSON string scanner (`scanUnits`, `combineUnits`,
`parsePayload`) is used to state round-trip properties of the serialized
payload.
-/

namespace DiscordBot

/-- Error kinds raised by the hook: `notFound` models
`AirflowNotFoundException`, `validation` models the `AirflowException`
raised for over-long messages. -/
inductive ErrorKind where
  | notFound
  | validation
  deriving DecidableEq, Repr

/-- An Airflow connection record as seen by the hook: the optional direct
secret (`conn.password`) and the structured extra configuration
(`conn.extra_dejson`) as an association list. -/
structure Connection where
  password : Option String
  extra : List (String × String)
  deriving DecidableEq, Repr

/-- Python truthiness of a string: `""` is falsy. -/
def pyTruthy (s : String) : Bool := !s.isEmpty

/-- Python truthiness of an optional string: `None` and `""` are falsy. -/
def pyTruthyOpt : Option String → Bool
  | none => false
  | some s => pyTruthy s

/-- Embeds `extra.get(key, "")`: look the key up in the extra
configuration, defaulting to the empty string. -/
def extraGet (extra : List (String × String)) (key : String) : String :=
  match extra.find? (fun p => p.1 == key) with
  | some p => p.2
  | none => ""

/-- Embeds `DiscordBotWebhookHook._get_token`. Returns the resolved token together
with the number of deprecation warnings emitted on the way
(`warnings.warn` fires exactly when the `bot_token` fallback is truthy).

```python
conn = self.get_connection(http_conn_id)
if getattr(conn, "password", None):
    return conn.password
elif http_conn_id:
    extra = conn.extra_dejson
    bot_token = extra.get("bot_token", "")
    if bot_token:
        warnings.warn(...)
    return bot_token
else:
    raise AirflowNotFoundException(...)
```
-/
def get_token (http_conn_id : Option String) (conn : Connection) :
    Except ErrorKind (String × Nat) :=
  if pyTruthyOpt conn.password then
    .ok (conn.password.getD "", 0)
  else if pyTruthyOpt http_conn_id then
    let bot_token := extraGet conn.extra "bot_token"
    .ok (bot_token, if pyTruthy bot_token then 1 else 0)
  else
    .error .notFound

/-- Embeds `DiscordBotWebhookHook._get_endpoint`. When the explicit channel is
falsy and the connection id is truthy but the extra configuration yields
neither a `channel` nor an `endpoint`, the Python function falls off its
end and returns `None`: that outcome is `.ok none`.

```python
conn = self.get_connection(http_conn_id)
if channel:
    return f"channels/[channel]/messages"
if http_conn_id:
    extra = conn.extra_dejson
    channel = extra.get("channel", "")
    if channel:
        return f"channels/[channel]/messages"
    endpoint = extra.get("endpoint", "")
    if endpoint:
        return endpoint
else:
    raise AirflowNotFoundException(...)
```
-/
def get_endpoint (http_conn_id : Option String) (conn : Connection)
    (channel : String) : Except ErrorKind (Option String) :=
  if pyTruthy channel then
    .ok (some ("channels/" ++ channel ++ "/messages"))
  else if pyTruthyOpt http_conn_id then
    let ch := extraGet conn.extra "channel"
    if pyTruthy ch then
      .ok (some ("channels/" ++ ch ++ "/messages"))
    else
      let endpoint := extraGet conn.extra "endpoint"
      if pyTruthy endpoint then .ok (some endpoint) else .ok none
  else
    .error .notFound

/-- The lowercase hexadecimal digit character for `n % 16`
(CPython formats `\uXXXX` escapes with `%04x`, lowercase). -/
def toHexDigit (n : Nat) : Char :=
  if n < 10 then Char.ofNat (48 + n) else Char.ofNat (87 + n)

/-- The four lowercase hex digits of `n` (most significant first),
as written by CPython's `'\u%04x' % n`. -/
def hex4Chars (n : Nat) : List Char :=
  [toHexDigit (n / 4096 % 16), toHexDigit (n / 256 % 16),
   toHexDigit (n / 16 % 16), toHexDigit (n % 16)]

/-- One character as serialized by CPython's
`json.encoder.encode_basestring_ascii` (the `json.dumps` default,
`ensure_ascii=True`): printable ASCII other than `"` and `\` is literal;
`"` `\` and the five named control escapes are backslash escapes; every
other BMP character becomes `\uXXXX`; astral characters become a UTF-16
surrogate pair `\uXXXX\uXXXX`. -/
def escapeChar (c : Char) : List Char :=
  if c = '"' then ['\\', '"']
  else if c = '\\' then ['\\', '\\']
  else if c = '\x08' then ['\\', 'b']
  else if c = '\t' then ['\\', 't']
  else if c = '\n' then ['\\', 'n']
  else if c = '\x0c' then ['\\', 'f']
  else if c = '\r' then ['\\', 'r']
  else if 0x20 ≤ c.toNat ∧ c.toNat ≤ 0x7E then [c]
  else if c.toNat < 0x10000 then '\\' :: 'u' :: hex4Chars c.toNat
  else
    ('\\' :: 'u' :: hex4Chars (0xD800 + (c.toNat - 0x10000) / 0x400)) ++
    ('\\' :: 'u' :: hex4Chars (0xDC00 + (c.toNat - 0x10000) % 0x400))

/-- A Python string literal as serialized by `json.dumps`: the escaped
characters between double quotes. -/
def encodeJsonString (s : String) : String :=
  ⟨'"' :: (s.data.flatMap escapeChar ++ ['"'])⟩

/-- Embeds `json.dumps({"content": message, "tts": tts})` with CPython's defaults:
insertion order (`content` before `tts`), separators `", "` and `": "`,
`ensure_ascii=True`. -/
def json_dumps_payload (message : String) (tts : Bool) : String :=
  "\x7b\"content\": " ++ encodeJsonString message ++ ", \"tts\": " ++
    (if tts then "true" else "false") ++ "\x7d"

/-- Embeds `DiscordBotWebhookHook._build_payload`:

```python
payload = \x7b\x7d
if len(message) <= 2000:
    payload["content"] = message
else:
    raise AirflowException(...)
payload["tts"] = self.tts
return json.dumps(payload)
```
-/
def build_payload (tts : Bool) (message : String) : Except ErrorKind String :=
  if message.length ≤ 2000 then
    .ok (json_dumps_payload message tts)
  else
    .error .validation

/-- The hook's state after a successful `__init__`: the attributes the
constructor sets. `endpoint` is optional because `_get_endpoint` can
return Python `None`. -/
structure HookState where
  http_conn_id : Option String
  token : String
  endpoint : Option String
  message : String
  tts : Bool
  deriving DecidableEq, Repr

/-- Embeds `DiscordBotWebhookHook.__init__`: resolves the token, then the
endpoint (each may raise), then stores the message and tts flag. `conn` is
the record the external `get_connection` collaborator returns for
`http_conn_id`. -/
def mkHook (conn : Connection) (http_conn_id : Option String)
    (message channel : String) (tts : Bool) : Except ErrorKind HookState := do
  let tok ← get_token http_conn_id conn
  let ep ← get_endpoint http_conn_id conn channel
  pure { http_conn_id := http_conn_id, token := tok.1, endpoint := ep,
         message := message, tts := tts }

/-- One outbound HTTP request as handed to the `HttpHook.run` capability
(always a POST in this hook). -/
structure HttpRequest where
  endpoint : Option String
  data : String
  headers : List (String × String)
  deriving DecidableEq, Repr

/-- Embeds `DiscordBotWebhookHook.execute`: build the payload (which may raise the
validation error before any network activity), then hand exactly one
request to `HttpHook.run`. The result pairs the list of requests actually
issued with the error raised, if any. -/
def HookState.execute (h : HookState) : List HttpRequest × Option ErrorKind :=
  match build_payload h.tts h.message with
  | .error e => ([], some e)
  | .ok payload =>
      ([{ endpoint := h.endpoint, data := payload,
          headers := [("Content-type", "application/json"),
                      ("Authorization", "Bot " ++ h.token)] }], none)

/-- The value of one hexadecimal digit character (either case), or `none`. -/
def hexVal (c : Char) : Option Nat :=
  if 48 ≤ c.toNat ∧ c.toNat ≤ 57 then some (c.toNat - 48)
  else if 97 ≤ c.toNat ∧ c.toNat ≤ 102 then some (c.toNat - 87)
  else if 65 ≤ c.toNat ∧ c.toNat ≤ 70 then some (c.toNat - 55)
  else none

/-- The value of a four-hex-digit group, or `none`. -/
def hexQuad (a b c d : Char) : Option Nat := do
  let x ← hexVal a
  let y ← hexVal b
  let z ← hexVal c
  let w ← hexVal d
  pure (4096 * x + 256 * y + 16 * z + w)

/-- The character denoted by a single-letter JSON escape, or `none`. -/
def unescapeChar : Char → Option Char
  | '"' => some '"'
  | '\\' => some '\\'
  | '/' => some '/'
  | 'b' => some '\x08'
  | 't' => some '\t'
  | 'n' => some '\n'
  | 'f' => some '\x0c'
  | 'r' => some '\r'
  | _ => none

/-- Scan the body of a JSON string (the part after the opening quote) up
to the closing quote, decoding escapes into UTF-16 code units (a plain
character contributes its code point; a `\uXXXX` escape contributes the
four-digit value as-is, so an astral character arrives as its two
surrogate halves); return the units and the remaining input. -/
def scanUnits (acc : List Nat) (l : List Char) : Option (List Nat × List Char) :=
  match l with
  | [] => none
  | c :: rest =>
      if c = '"' then some (acc.reverse, rest)
      else if c = '\\' then
        match rest with
        | [] => none
        | e :: rest1 =>
            if e = 'u' then
              match rest1 with
              | a :: b :: c2 :: d :: rest2 =>
                  match hexQuad a b c2 d with
                  | none => none
                  | some n => scanUnits (n :: acc) rest2
              | _ => none
            else
              match unescapeChar e with
              | none => none
              | some u => scanUnits (u.toNat :: acc) rest1
      else scanUnits (c.toNat :: acc) rest
termination_by structural l

/-- Combine a list of UTF-16 code units into characters: a high surrogate
must be followed by a low surrogate (together one astral character), a
lone surrogate is rejected, anything else is the code point itself. -/
def combineUnits (l : List Nat) : Option (List Char) :=
  match l with
  | [] => some []
  | n :: ns =>
      if n < 0xD800 ∨ (0xDFFF < n ∧ n < 0x110000) then
        (Char.ofNat n :: ·) <$> combineUnits ns
      else if 0xD800 ≤ n ∧ n ≤ 0xDBFF then
        match ns with
        | [] => none
        | m :: ns2 =>
            if 0xDC00 ≤ m ∧ m ≤ 0xDFFF then
              (Char.ofNat ((n - 0xD800) * 0x400 + (m - 0xDC00) + 0x10000) :: ·) <$>
                combineUnits ns2
            else none
      else none
termination_by structural l

/-- The UTF-16 code units of one character: itself when it is in the basic
multilingual plane, otherwise its surrogate pair. -/
def charUnits (c : Char) : List Nat :=
  if c.toNat < 0x10000 then [c.toNat]
  else [0xD800 + (c.toNat - 0x10000) / 0x400, 0xDC00 + (c.toNat - 0x10000) % 0x400]

/-- Consume an expected literal character sequence from the input; `none`
when the input does not start with it. -/
def dropLit : List Char → List Char → Option (List Char)
  | [], rest => some rest
  | _ :: _, [] => none
  | p :: ps, c :: cs => if c = p then dropLit ps cs else none

/-- Recognise the closing `true}` / `false}` of the payload object. -/
def parseBoolClose : List Char → Option Bool
  | ['t', 'r', 'u', 'e', '\x7d'] => some true
  | ['f', 'a', 'l', 's', 'e', '\x7d'] => some false
  | _ => none

/-- Parse a serialized payload object back into its `content` string and
`tts` flag: expects exactly the shape
`\x7b"content": <json string>, "tts": <bool>\x7d`. -/
def parsePayload (s : String) : Option (String × Bool) := do
  let r1 ← dropLit "\x7b\"content\": \"".data s.data
  let (units, r2) ← scanUnits [] r1
  let content ← combineUnits units
  let r3 ← dropLit ", \"tts\": ".data r2
  let tts ← parseBoolClose r3
  pure (⟨content⟩, tts)


theorem char_valid_nat (c : Char) :
    c.toNat < 0xD800 ∨ (0xDFFF < c.toNat ∧ c.toNat < 0x110000) := by
  have h := c.valid
  unfold UInt32.isValidChar Nat.isValidChar at h
  exact h

theorem hexVal_toHexDigit (d : Nat) (h : d < 16) : hexVal (toHexDigit d) = some d := by
  interval_cases d <;> decide

theorem hexQuad_hex4 (n : Nat) :
    hexQuad (toHexDigit (n / 4096 % 16)) (toHexDigit (n / 256 % 16))
      (toHexDigit (n / 16 % 16)) (toHexDigit (n % 16)) = some (n % 0x10000) := by
  have h1 := hexVal_toHexDigit (n / 4096 % 16) (Nat.mod_lt _ (by omega))
  have h2 := hexVal_toHexDigit (n / 256 % 16) (Nat.mod_lt _ (by omega))
  have h3 := hexVal_toHexDigit (n / 16 % 16) (Nat.mod_lt _ (by omega))
  have h4 := hexVal_toHexDigit (n % 16) (Nat.mod_lt _ (by omega))
  simp [hexQuad, h1, h2, h3, h4]
  omega

theorem scanUnits_plain (c : Char) (h1 : c ≠ '"') (h2 : c ≠ '\\')
    (acc : List Nat) (rest : List Char) :
    scanUnits acc (c :: rest) = scanUnits (c.toNat :: acc) rest := by
  rw [scanUnits.eq_def]
  simp [h1, h2]

theorem scanUnits_unicode (n : Nat) (hn : n < 0x10000) (acc : List Nat) (rest : List Char) :
    scanUnits acc ('\\' :: 'u' :: hex4Chars n ++ rest) = scanUnits (n :: acc) rest := by
  have hq := hexQuad_hex4 n
  rw [Nat.mod_eq_of_lt hn] at hq
  rw [scanUnits.eq_def]
  simp [hex4Chars, hq]

theorem scanUnits_escapeChar (c : Char) (acc : List Nat) (rest : List Char) :
    scanUnits acc (escapeChar c ++ rest) = scanUnits ((charUnits c).reverse ++ acc) rest := by
  have hv := char_valid_nat c
  by_cases h1 : c = '"'
  · subst h1
    rw [show escapeChar '"' = ['\\', '"'] from rfl, show charUnits '"' = [34] from rfl]
    rw [scanUnits.eq_def]
    simp [unescapeChar]
  · by_cases h2 : c = '\\'
    · subst h2
      rw [show escapeChar '\\' = ['\\', '\\'] from rfl, show charUnits '\\' = [92] from rfl]
      rw [scanUnits.eq_def]
      simp [unescapeChar]
    · by_cases h3 : c = '\x08'
      · subst h3
        rw [show escapeChar '\x08' = ['\\', 'b'] from rfl, show charUnits '\x08' = [8] from rfl]
        rw [scanUnits.eq_def]
        simp [unescapeChar]
      · by_cases h4 : c = '\t'
        · subst h4
          rw [show escapeChar '\t' = ['\\', 't'] from rfl, show charUnits '\t' = [9] from rfl]
          rw [scanUnits.eq_def]
          simp [unescapeChar]
        · by_cases h5 : c = '\n'
          · subst h5
            rw [show escapeChar '\n' = ['\\', 'n'] from rfl, show charUnits '\n' = [10] from rfl]
            rw [scanUnits.eq_def]
            simp [unescapeChar]
          · by_cases h6 : c = '\x0c'
            · subst h6
              rw [show escapeChar '\x0c' = ['\\', 'f'] from rfl,
                 show charUnits '\x0c' = [12] from rfl]
              rw [scanUnits.eq_def]
              simp [unescapeChar]
            · by_cases h7 : c = '\r'
              · subst h7
                rw [show escapeChar '\r' = ['\\', 'r'] from rfl,
                   show charUnits '\r' = [13] from rfl]
                rw [scanUnits.eq_def]
                simp [unescapeChar]
              · by_cases h8 : 0x20 ≤ c.toNat ∧ c.toNat ≤ 0x7E
                · have hesc : escapeChar c = [c] := by
                    unfold escapeChar
                    rw [if_neg h1, if_neg h2, if_neg h3, if_neg h4, if_neg h5, if_neg h6,
                        if_neg h7, if_pos h8]
                  have hcu : charUnits c = [c.toNat] := by
                    unfold charUnits
                    rw [if_pos (by omega)]
                  rw [hesc, hcu, List.singleton_append, List.reverse_singleton,
                      List.singleton_append, scanUnits_plain c h1 h2]
                · by_cases h9 : c.toNat < 0x10000
                  · have hesc : escapeChar c = '\\' :: 'u' :: hex4Chars c.toNat := by
                      unfold escapeChar
                      rw [if_neg h1, if_neg h2, if_neg h3, if_neg h4, if_neg h5, if_neg h6,
                          if_neg h7, if_neg h8, if_pos h9]
                    have hcu : charUnits c = [c.toNat] := by
                      unfold charUnits
                      rw [if_pos h9]
                    rw [hesc, hcu, scanUnits_unicode c.toNat h9, List.reverse_singleton,
                        List.singleton_append]
                  · have hesc : escapeChar c =
                        ('\\' :: 'u' :: hex4Chars (0xD800 + (c.toNat - 0x10000) / 0x400)) ++
                        ('\\' :: 'u' :: hex4Chars (0xDC00 + (c.toNat - 0x10000) % 0x400)) := by
                      unfold escapeChar
                      rw [if_neg h1, if_neg h2, if_neg h3, if_neg h4, if_neg h5, if_neg h6,
                          if_neg h7, if_neg h8, if_neg h9]
                    have hcu : charUnits c = [0xD800 + (c.toNat - 0x10000) / 0x400,
                        0xDC00 + (c.toNat - 0x10000) % 0x400] := by
                      unfold charUnits
                      rw [if_neg h9]
                    rw [hesc, hcu, List.append_assoc,
                        scanUnits_unicode _ (by omega), scanUnits_unicode _ (by omega)]
                    simp

theorem scanUnits_close (acc : List Nat) (rest : List Char) :
    scanUnits acc ('"' :: rest) = some (acc.reverse, rest) := by
  rw [scanUnits.eq_def]
  simp

theorem scanUnits_flatMap (cs : List Char) : ∀ (acc : List Nat) (rest : List Char),
    scanUnits acc (cs.flatMap escapeChar ++ '"' :: rest) =
      some (acc.reverse ++ cs.flatMap charUnits, rest) := by
  induction cs with
  | nil =>
      intro acc rest
      simpa using scanUnits_close acc rest
  | cons c cs ih =>
      intro acc rest
      rw [List.flatMap_cons, List.append_assoc, scanUnits_escapeChar, ih,
          List.flatMap_cons]
      simp

theorem combineUnits_flatMap (cs : List Char) :
    combineUnits (cs.flatMap charUnits) = some cs := by
  induction cs with
  | nil => rfl
  | cons c cs ih =>
      rw [List.flatMap_cons]
      have hv := char_valid_nat c
      by_cases h : c.toNat < 0x10000
      · rw [show charUnits c = [c.toNat] from by unfold charUnits; rw [if_pos h]]
        rw [List.singleton_append]
        rw [show combineUnits (c.toNat :: cs.flatMap charUnits) =
          (Char.ofNat c.toNat :: ·) <$> combineUnits (cs.flatMap charUnits) from by
            rw [combineUnits.eq_def]
            dsimp only
            rw [if_pos (by omega)]]
        simp [ih, Char.ofNat_toNat]
      · rw [show charUnits c = [0xD800 + (c.toNat - 0x10000) / 0x400,
              0xDC00 + (c.toNat - 0x10000) % 0x400] from by unfold charUnits; rw [if_neg h]]
        rw [List.cons_append, List.cons_append, List.nil_append]
        rw [show combineUnits ((0xD800 + (c.toNat - 0x10000) / 0x400) ::
              (0xDC00 + (c.toNat - 0x10000) % 0x400) :: cs.flatMap charUnits) =
            (Char.ofNat ((0xD800 + (c.toNat - 0x10000) / 0x400 - 0xD800) * 0x400 +
              (0xDC00 + (c.toNat - 0x10000) % 0x400 - 0xDC00) + 0x10000) :: ·) <$>
              combineUnits (cs.flatMap charUnits) from by
            rw [combineUnits.eq_def]
            dsimp only
            rw [if_neg (by omega), if_pos (by omega), if_pos (by omega)]]
        have harith : (0xD800 + (c.toNat - 0x10000) / 0x400 - 0xD800) * 0x400 +
            (0xDC00 + (c.toNat - 0x10000) % 0x400 - 0xDC00) + 0x10000 = c.toNat := by
          omega
        rw [harith, ih]
        simp [Char.ofNat_toNat]

theorem dropLit_self (p : List Char) : ∀ (rest : List Char),
    dropLit p (p ++ rest) = some rest := by
  induction p with
  | nil => intro rest; rfl
  | cons c cs ih =>
      intro rest
      rw [List.cons_append, dropLit.eq_def]
      simp [ih]

theorem parsePayload_dumps (message : String) (tts : Bool) :
    parsePayload (json_dumps_payload message tts) = some (message, tts) := by
  have hdata : (json_dumps_payload message tts).data =
      "\x7b\"content\": \"".data ++ (message.data.flatMap escapeChar ++ '"' ::
        (", \"tts\": ".data ++ ((if tts then "true" else "false") ++ "\x7d").data)) := by
    cases tts <;>
      simp [json_dumps_payload, encodeJsonString, String.data_append]
  rw [parsePayload, hdata]
  simp only [dropLit_self, Option.bind_eq_bind, Option.some_bind, scanUnits_flatMap,
    List.reverse_nil, List.nil_append, combineUnits_flatMap]
  cases tts <;> rfl

/-- With no connection identifier and a falsy password, both resolvers
fail with the not-found error, and so does hook construction, whatever the
message. Shared helper for the claims below. -/
theorem resolvers_none_notFound (conn : Connection)
    (hpw : pyTruthyOpt conn.password = false) :
    get_token none conn = .error .notFound ∧
    get_endpoint none conn "" = .error .notFound ∧
    (∀ (message : String) (tts : Bool),
      mkHook conn none message "" tts = .error .notFound) := by
  have h0 : pyTruthy "" = false := rfl
  have hn : pyTruthyOpt none = false := rfl
  have ht : get_token none conn = .error .notFound := by
    simp [get_token, hpw, hn]
  have he : get_endpoint none conn "" = .error .notFound := by
    simp [get_endpoint, h0, hn]
  refine ⟨ht, he, fun message tts => ?_⟩
  unfold mkHook
  rw [ht]
  rfl

/-- Claim C1: token resolution follows a strict precedence: a present and
non-empty direct secret (`password`) is returned with no warning regardless
of any `bot_token` entry in the extra configuration; otherwise, when a
connection identifier is present, the `bot_token` key of the extra
configuration is returned; and when the secret is absent or empty and no
connection identifier was supplied, resolution fails with the not-found
error kind. -/
theorem get_token_precedence (cid : Option String) (conn : Connection) :
    (pyTruthyOpt conn.password = true →
      get_token cid conn = .ok (conn.password.getD "", 0)) ∧
    (pyTruthyOpt conn.password = false → pyTruthyOpt cid = true →
      get_token cid conn = .ok (extraGet conn.extra "bot_token",
        if pyTruthy (extraGet conn.extra "bot_token") then 1 else 0)) ∧
    (pyTruthyOpt conn.password = false → pyTruthyOpt cid = false →
      get_token cid conn = .error .notFound) := by
  refine ⟨fun h => ?_, fun h1 h2 => ?_, fun h1 h2 => ?_⟩ <;>
    simp [get_token, *]

theorem get_token_precedence_witness :
    get_token (some "c") ⟨some "T1", [("bot_token", "X")]⟩ = .ok ("T1", 0) ∧
    get_token (some "c") ⟨none, [("bot_token", "X")]⟩ = .ok ("X", 1) ∧
    get_token none ⟨none, [("bot_token", "X")]⟩ = .error .notFound :=
  ⟨(get_token_precedence (some "c") ⟨some "T1", [("bot_token", "X")]⟩).1 (by decide),
   ((get_token_precedence (some "c") ⟨none, [("bot_token", "X")]⟩).2.1 rfl (by decide)).trans
     rfl,
   (get_token_precedence none ⟨none, [("bot_token", "X")]⟩).2.2 rfl rfl⟩

/-- Claim C2: for every non-empty explicit channel parameter, endpoint
resolution returns exactly `channels/[channel]/messages`, regardless of the
connection identifier and of any `channel`/`endpoint` keys in the
connection's extra configuration. -/
theorem get_endpoint_explicit_channel (cid : Option String) (conn : Connection)
    (channel : String) (h : pyTruthy channel = true) :
    get_endpoint cid conn channel =
      .ok (some ("channels/" ++ channel ++ "/messages")) := by
  simp [get_endpoint, h]

theorem get_endpoint_explicit_channel_witness :
    get_endpoint (some "c") ⟨none, [("channel", "99"), ("endpoint", "E")]⟩ "123" =
      .ok (some "channels/123/messages") :=
  get_endpoint_explicit_channel (some "c") ⟨none, [("channel", "99"), ("endpoint", "E")]⟩
    "123" (by decide)

/-- Claim C3: for every hook whose message exceeds 2000 characters,
`execute` fails with the validation error kind and the underlying HTTP
`run` capability is never invoked (the request trace is empty). -/
theorem execute_long_message (h : HookState) (hlen : 2000 < h.message.length) :
    h.execute = ([], some .validation) := by
  unfold HookState.execute build_payload
  rw [if_neg (by omega)]

theorem execute_long_message_witness :
    HookState.execute
      ⟨some "c", "T", some "e", ⟨List.replicate 2001 'a'⟩, false⟩ =
      ([], some .validation) :=
  execute_long_message ⟨some "c", "T", some "e", ⟨List.replicate 2001 'a'⟩, false⟩
    (by show 2000 < (List.replicate 2001 'a').length
        rw [List.length_replicate]
        omega)

/-- Claim C4: for every message of at most 2000 characters the payload
builder succeeds with the serialized JSON object, and parsing that object
back recovers the `content` field equal to the original message (the JSON
escaping round-trips exactly) and the `tts` field equal to the configured
text-to-speech flag. -/
theorem build_payload_roundtrip (message : String) (tts : Bool)
    (hlen : message.length ≤ 2000) :
    build_payload tts message = .ok (json_dumps_payload message tts) ∧
    parsePayload (json_dumps_payload message tts) = some (message, tts) :=
  ⟨by unfold build_payload; rw [if_pos hlen], parsePayload_dumps message tts⟩

theorem build_payload_roundtrip_witness :
    build_payload true "hi ☺" = .ok (json_dumps_payload "hi ☺" true) ∧
    parsePayload (json_dumps_payload "hi ☺" true) = some ("hi ☺", true) :=
  build_payload_roundtrip "hi ☺" true (by decide)

/-- Claim C5: with no connection identifier and no explicit channel or
direct secret supplied, the token resolver and the endpoint resolver both
fail with the not-found error kind, and hook construction (which runs the
resolvers) propagates that failure for any message, so no hook exists to
perform network activity. -/
theorem no_conn_id_notFound (conn : Connection)
    (hpw : pyTruthyOpt conn.password = false) :
    get_token none conn = .error .notFound ∧
    get_endpoint none conn "" = .error .notFound ∧
    (∀ (message : String) (tts : Bool),
      mkHook conn none message "" tts = .error .notFound) :=
  resolvers_none_notFound conn hpw

theorem no_conn_id_notFound_witness :
    get_token none ⟨none, []⟩ = .error .notFound ∧
    get_endpoint none ⟨none, []⟩ "" = .error .notFound ∧
    mkHook ⟨none, []⟩ none "hello" "" true = .error .notFound :=
  ⟨(no_conn_id_notFound ⟨none, []⟩ rfl).1,
   (no_conn_id_notFound ⟨none, []⟩ rfl).2.1,
   (no_conn_id_notFound ⟨none, []⟩ rfl).2.2 "hello" true⟩

/-- Claim C6: with a connection identifier present, no explicit channel,
and an extra configuration containing neither a truthy `channel` nor a
truthy `endpoint`, endpoint resolution raises no error and produces no
endpoint value: it returns Python `None`. -/
theorem get_endpoint_fallthrough_none (cid : Option String) (conn : Connection)
    (hc : pyTruthyOpt cid = true)
    (hch : pyTruthy (extraGet conn.extra "channel") = false)
    (hep : pyTruthy (extraGet conn.extra "endpoint") = false) :
    get_endpoint cid conn "" = .ok none := by
  have h0 : pyTruthy "" = false := rfl
  simp [get_endpoint, h0, hc, hch, hep]

theorem get_endpoint_fallthrough_none_witness :
    get_endpoint (some "c") ⟨some "T", [("bot_token", "X")]⟩ "" = .ok none :=
  get_endpoint_fallthrough_none (some "c") ⟨some "T", [("bot_token", "X")]⟩
    rfl rfl rfl

/-- Claim C7: for a connection with a falsy direct secret but a truthy
`bot_token` key in its extra configuration, token resolution returns that
value and emits exactly one deprecation warning. -/
theorem get_token_bot_token_warning (cid : Option String) (conn : Connection)
    (hpw : pyTruthyOpt conn.password = false) (hc : pyTruthyOpt cid = true)
    (hbt : pyTruthy (extraGet conn.extra "bot_token") = true) :
    get_token cid conn = .ok (extraGet conn.extra "bot_token", 1) := by
  simp [get_token, hpw, hc, hbt]

theorem get_token_bot_token_warning_witness :
    get_token (some "c") ⟨none, [("bot_token", "X")]⟩ = .ok ("X", 1) :=
  (get_token_bot_token_warning (some "c") ⟨none, [("bot_token", "X")]⟩
    rfl rfl rfl).trans rfl

/-- Claim C8: for the concrete input — connection with direct secret
`"T1"`, explicit channel `"123"`, message `"hi"`, `tts = false` — the hook
constructs with endpoint `channels/123/messages`, and executing it issues
exactly one request, to that endpoint, with headers
`Content-type: application/json` and `Authorization: Bot T1`, whose body is
the JSON object with `content = "hi"` and `tts = false` (shown both as the
exact serialized text and by parsing the body back). -/
theorem execute_example_request :
    mkHook ⟨some "T1", []⟩ (some "discord_default") "hi" "123" false =
      .ok ⟨some "discord_default", "T1", some "channels/123/messages", "hi", false⟩ ∧
    HookState.execute
        ⟨some "discord_default", "T1", some "channels/123/messages", "hi", false⟩ =
      ([⟨some "channels/123/messages", json_dumps_payload "hi" false,
         [("Content-type", "application/json"), ("Authorization", "Bot T1")]⟩], none) ∧
    json_dumps_payload "hi" false = "\x7b\"content\": \"hi\", \"tts\": false\x7d" ∧
    parsePayload (json_dumps_payload "hi" false) = some ("hi", false) :=
  ⟨rfl, rfl, rfl, rfl⟩

/-- Claim C9 (implicit): with a connection identifier present but neither a
truthy direct secret nor a truthy `bot_token` extra entry, token resolution
returns the empty string, raising no error and emitting no deprecation
warning; a hook carrying that empty token sends its request with the
literal header `Authorization: Bot ` followed by nothing. -/
theorem get_token_empty_bot_header (cid : Option String) (conn : Connection)
    (hc : pyTruthyOpt cid = true) (hpw : pyTruthyOpt conn.password = false)
    (hbt : extraGet conn.extra "bot_token" = "") :
    get_token cid conn = .ok ("", 0) ∧
    (∀ (ep : Option String) (message : String) (tts : Bool),
      message.length ≤ 2000 →
      HookState.execute ⟨cid, "", ep, message, tts⟩ =
        ([⟨ep, json_dumps_payload message tts,
           [("Content-type", "application/json"), ("Authorization", "Bot ")]⟩],
         none)) := by
  constructor
  · have h0 : pyTruthy "" = false := rfl
    simp [get_token, hpw, hc, hbt, h0]
  · intro ep message tts hlen
    unfold HookState.execute build_payload
    rw [if_pos hlen]
    simp [String.append_empty]

theorem get_token_empty_bot_header_witness :
    get_token (some "c") ⟨some "", []⟩ = .ok ("", 0) ∧
    HookState.execute ⟨some "c", "", some "e", "hi", false⟩ =
      ([⟨some "e", json_dumps_payload "hi" false,
         [("Content-type", "application/json"), ("Authorization", "Bot ")]⟩],
       none) :=
  ⟨(get_token_empty_bot_header (some "c") ⟨some "", []⟩ rfl rfl rfl).1,
   (get_token_empty_bot_header (some "c") ⟨some "", []⟩ rfl rfl rfl).2
     (some "e") "hi" false (by decide)⟩

/-- Claim C10 (implicit): an explicit channel equal to the empty string
(the constructor default) is treated as absent — endpoint resolution skips
the `channels/[channel]/messages` construction for it and falls through to
the `channel` and then `endpoint` keys of the extra configuration — and
with no connection identifier the not-found failure is raised by the
resolvers during hook construction for every message, even one whose
length exceeds 2000, so message-length validation never runs. -/
theorem empty_channel_treated_absent (cid : Option String) (conn : Connection)
    (hc : pyTruthyOpt cid = true) :
    (get_endpoint cid conn "" =
      (if pyTruthy (extraGet conn.extra "channel") then
        .ok (some ("channels/" ++ extraGet conn.extra "channel" ++ "/messages"))
      else if pyTruthy (extraGet conn.extra "endpoint") then
        .ok (some (extraGet conn.extra "endpoint"))
      else .ok none)) ∧
    (∀ (conn2 : Connection) (message : String) (tts : Bool),
      pyTruthyOpt conn2.password = false →
      mkHook conn2 none message "" tts = .error .notFound) := by
  constructor
  · have h0 : pyTruthy "" = false := rfl
    simp [get_endpoint, h0, hc]
  · intro conn2 message tts hpw
    exact (resolvers_none_notFound conn2 hpw).2.2 message tts

theorem empty_channel_treated_absent_witness :
    get_endpoint (some "c") ⟨none, [("endpoint", "ep")]⟩ "" = .ok (some "ep") ∧
    mkHook ⟨none, []⟩ none ⟨List.replicate 2001 'a'⟩ "" true = .error .notFound :=
  ⟨(empty_channel_treated_absent (some "c") ⟨none, [("endpoint", "ep")]⟩ rfl).1.trans rfl,
   (empty_channel_treated_absent (some "c") ⟨none, [("endpoint", "ep")]⟩ rfl).2
     ⟨none, []⟩ ⟨List.replicate 2001 'a'⟩ true rfl⟩
end DiscordBot
